import Mathlib

/-!
Verification development for the CoviDash data pipeline.

The Python sources are shallowly embedded:
* `src/data/processor.py`  → namespace `DataProcessor`
* `src/data/fetcher.py`    → namespace `DataFetcher`
* `src/covidash/data/cache.py` → namespace `CacheModel`

Modelling conventions:
* Python ints are `ℤ`; Python floats are exact rationals `ℚ`.  Expressions of
  the form `int(x * 0.3)` (truncating float-to-int conversion of a scaled
  value) are modelled as exact truncating division `pytrunc (3 * x) 10`;
  `round(x, 2)` is modelled as rounding `100 * x` to the nearest integer.
* Dict lookups with defaults become `Option.getD`; per-record Python
  exceptions cannot occur for the typed inputs modelled here.
* Wall-clock timestamps are rationals (seconds); ISO-format serialisation
  of timestamps is assumed to round-trip.
* Display-formatting fields of the processor (`*_formatted` strings,
  `last_updated`) are not used by any property below and are omitted.
-/

namespace CoviDash

/-- Python's `int()` conversion of the exact quotient `a / b` (with `b > 0`):
truncation toward zero. -/
def pytrunc (a : ℤ) (b : ℤ) : ℤ :=
  if a < 0 then -((-a) / b) else a / b

/-- Model of `int(x * (num/den))` as it appears in the sources,
for example `int(population * 0.3)` is `pyScale 3 10 population`. -/
def pyScale (num den x : ℤ) : ℤ := pytrunc (num * x) den

/-- Round a rational to the nearest integer (half away from zero rounds
up): `⌊q + 1/2⌋` computed on the reduced fraction. -/
def ratRound (q : ℚ) : ℤ := (2 * q.num + (q.den : ℤ)) / (2 * (q.den : ℤ))

/-- Model of Python's `round(q, 2)`: round `100 * q` to the nearest integer
(Python uses banker's rounding on binary floats; no property below depends
on the tie-breaking rule or on binary rounding error). -/
def round2 (q : ℚ) : ℚ := (ratRound (q * 100) : ℚ) / 100

/-- Pointwise propositional `∀` over a list (no membership hypothesis needed
to state it, and decidable for concrete lists). -/
def ListAll (p : α → Prop) : List α → Prop
  | [] => True
  | a :: l => p a ∧ ListAll p l

instance ListAll.dec (p : α → Prop) [DecidablePred p] : (l : List α) → Decidable (ListAll p l)
  | [] => .isTrue trivial
  | a :: l =>
    match inferInstanceAs (Decidable (p a)), ListAll.dec p l with
    | .isTrue ha, .isTrue hl => .isTrue ⟨ha, hl⟩
    | .isFalse ha, _ => .isFalse (fun h => ha h.1)
    | _, .isFalse hl => .isFalse (fun h => hl h.2)

end CoviDash

namespace CoviDash.DataProcessor

/-- Embedding of `DataProcessor.calculate_infection_rate`
(`src/data/processor.py:17`): rate per 100 000, rounded to 2 decimals,
0 for non-positive population. -/
def calculate_infection_rate (cases population : ℤ) : ℚ :=
  if population ≤ 0 then 0 else round2 ((cases : ℚ) / (population : ℚ) * 100000)

/-- Embedding of `DataProcessor.calculate_mortality_rate`
(`src/data/processor.py:26`). -/
def calculate_mortality_rate (deaths cases : ℤ) : ℚ :=
  if cases ≤ 0 then 0 else round2 ((deaths : ℚ) / (cases : ℚ) * 100)

/-- Embedding of `DataProcessor.calculate_recovery_rate`
(`src/data/processor.py:35`). -/
def calculate_recovery_rate (recovered cases : ℤ) : ℚ :=
  if cases ≤ 0 then 0 else round2 ((recovered : ℚ) / (cases : ℚ) * 100)

/-- Embedding of `DataProcessor.get_risk_level` (`src/data/processor.py:44`). -/
def get_risk_level (infection_rate : ℚ) : String :=
  if 5000 ≤ infection_rate then "critical"
  else if 2000 ≤ infection_rate then "high"
  else if 500 ≤ infection_rate then "medium"
  else "low"

/-- Embedding of `DataProcessor.get_marker_color` (`src/data/processor.py:56`). -/
def get_marker_color (infection_rate : ℚ) : String :=
  if 5000 ≤ infection_rate then "#800026"
  else if 2000 ≤ infection_rate then "#BD0026"
  else if 1000 ≤ infection_rate then "#E31A1C"
  else if 500 ≤ infection_rate then "#FC4E2A"
  else if 100 ≤ infection_rate then "#FD8D3C"
  else "#FEB24C"

/-- A raw per-location record as fed to `DataProcessor.clean_city_data`:
each Python dict key that the function reads becomes an optional field
(`none` models an absent key). -/
structure RawRecord where
  name : Option String := none
  country : Option String := none
  latitude : Option ℚ := none
  lat : Option ℚ := none
  longitude : Option ℚ := none
  lon : Option ℚ := none
  population : Option ℤ := none
  locType : Option String := none
  display_name : Option String := none
  cases : Option ℤ := none
  deaths : Option ℤ := none
  recovered : Option ℤ := none
  estimated : Option Bool := none
  estimation : Option ℤ := none
deriving DecidableEq

/-- The cleaned record built by `DataProcessor.clean_city_data`
(`src/data/processor.py:87`); display-formatting fields are omitted. -/
structure CleanedRecord where
  name : String
  country : String
  latitude : ℚ
  longitude : ℚ
  population : ℤ
  locType : String
  display_name : String
  cases : ℤ
  deaths : ℤ
  recovered : ℤ
  estimated : Bool
  estimation : Option ℤ
  active : ℤ
  infection_rate : ℚ
  mortality_rate : ℚ
  recovery_rate : ℚ
  risk_level : String
  marker_color : String
  marker_size_multiplier : ℚ
deriving DecidableEq

/-- Embedding of `DataProcessor.clean_city_data` (`src/data/processor.py:87`).
The `recovery_rate < 0.1` test on exact rationals is
`total_cases ≤ 0 ∨ 10 * recovered < total_cases`, matching
`(recovered / total_cases) if total_cases > 0 else 0`. -/
def clean_city_data (d : RawRecord) : CleanedRecord :=
  let name := d.name.getD "Unknown Location"
  let country := d.country.getD "Unknown Country"
  let latitude := d.latitude.getD (d.lat.getD 0)
  let longitude := d.longitude.getD (d.lon.getD 0)
  let population := d.population.getD 1
  let locType := d.locType.getD "city"
  let display_name0 := d.display_name.getD (name ++ ", " ++ country)
  let cases := d.cases.getD 0
  let deaths := d.deaths.getD 0
  let recovered := d.recovered.getD 0
  let raw_active := max 0 (cases - deaths - recovered)
  let active :=
    if cases ≤ 0 ∨ 10 * recovered < cases then min raw_active (pyScale 2 100 population)
    else raw_active
  let infection_rate := calculate_infection_rate active population
  let display_name :=
    if locType = "country" then "🌍 " ++ name
    else if locType = "state" then "🏛️ " ++ display_name0
    else "🏙️ " ++ display_name0
  let marker_size_multiplier : ℚ :=
    if locType = "country" then 3/2 else if locType = "state" then 6/5 else 1
  { name := name
    country := country
    latitude := latitude
    longitude := longitude
    population := population
    locType := locType
    display_name := display_name
    cases := cases
    deaths := deaths
    recovered := recovered
    estimated := d.estimated.getD false
    estimation := d.estimation
    active := active
    infection_rate := infection_rate
    mortality_rate := calculate_mortality_rate deaths cases
    recovery_rate := calculate_recovery_rate recovered cases
    risk_level := get_risk_level infection_rate
    marker_color := get_marker_color infection_rate
    marker_size_multiplier := marker_size_multiplier }

/-- Embedding of `DataProcessor.validate_city_data` (`src/data/processor.py:191`).
All required keys are always present on a cleaned record, so only the range
checks remain. -/
def validate_city_data (c : CleanedRecord) : Bool :=
  decide (-90 ≤ c.latitude) && decide (c.latitude ≤ 90) &&
  decide (-180 ≤ c.longitude) && decide (c.longitude ≤ 180) &&
  decide (0 < c.population) && decide (0 ≤ c.cases)

/-- Embedding of `DataProcessor.process_cities_data` (`src/data/processor.py:161`):
clean every record, keep the valid ones, sort by `infection_rate`
descending (Python's stable `list.sort(key=..., reverse=True)` is a stable
merge sort with the order on keys reversed). -/
def process_cities_data (raws : List RawRecord) : List CleanedRecord :=
  ((raws.map clean_city_data).filter validate_city_data).mergeSort
    (fun a b => decide (b.infection_rate ≤ a.infection_rate))

/-- The per-risk-level counters of the statistics summary
(`risk_distribution` in `src/data/processor.py:237`). -/
structure RiskDist where
  low : ℕ
  medium : ℕ
  high : ℕ
  critical : ℕ
deriving DecidableEq

/-- One `risk_distribution[risk_level] += 1` step
(`src/data/processor.py:238`): a key other than the four fixed ones would
raise `KeyError`, modelled by `none`. -/
def bumpRisk (t : RiskDist) (lvl : String) : Option RiskDist :=
  if lvl = "low" then some { t with low := t.low + 1 }
  else if lvl = "medium" then some { t with medium := t.medium + 1 }
  else if lvl = "high" then some { t with high := t.high + 1 }
  else if lvl = "critical" then some { t with critical := t.critical + 1 }
  else none

/-- The risk tally loop of `DataProcessor.get_statistics_summary`
(`src/data/processor.py:237`). -/
def riskDistribution (recs : List CleanedRecord) : Option RiskDist :=
  recs.foldlM (fun t r => bumpRisk t r.risk_level) ⟨0, 0, 0, 0⟩

/-- The statistics summary (`src/data/processor.py:216`); the formatted
strings and generation timestamp are omitted. -/
structure StatsSummary where
  total_cities : ℕ
  total_cases : ℤ
  total_deaths : ℤ
  total_recovered : ℤ
  average_infection_rate : ℚ
  highest_infection_rate : ℚ
  lowest_infection_rate : ℚ
  risk_distribution : RiskDist
deriving DecidableEq

/-- Embedding of `DataProcessor.get_statistics_summary`
(`src/data/processor.py:216`): all-zero summary on empty input, otherwise
sums, rounded mean, extremes and the risk tally (`none` models the
`KeyError` that an unexpected risk level would raise). -/
def get_statistics_summary (recs : List CleanedRecord) : Option StatsSummary :=
  match recs with
  | [] => some ⟨0, 0, 0, 0, 0, 0, 0, ⟨0, 0, 0, 0⟩⟩
  | r :: rest =>
    (riskDistribution (r :: rest)).map (fun dist =>
      { total_cities := (r :: rest).length
        total_cases := ((r :: rest).map CleanedRecord.cases).sum
        total_deaths := ((r :: rest).map CleanedRecord.deaths).sum
        total_recovered := ((r :: rest).map CleanedRecord.recovered).sum
        average_infection_rate :=
          round2 (((r :: rest).map CleanedRecord.infection_rate).sum /
            (((r :: rest).length : ℕ) : ℚ))
        highest_infection_rate :=
          (rest.map CleanedRecord.infection_rate).foldl max r.infection_rate
        lowest_infection_rate :=
          (rest.map CleanedRecord.infection_rate).foldl min r.infection_rate
        risk_distribution := dist })

end CoviDash.DataProcessor

namespace CoviDash.DataFetcher

/-- Outcome of one HTTP attempt inside `DataFetcher.fetch_with_retry`
(`src/data/fetcher.py:25`): a 2xx JSON response with payload, a 2xx
non-JSON response, or a transport / non-2xx failure
(`requests.exceptions.RequestException`). -/
inductive FetchOutcome (α : Type) where
  | jsonOk (payload : α)
  | nonJson
  | fail
deriving DecidableEq

/-- The retry loop of `DataFetcher.fetch_with_retry`, unrolled on the number
of attempts still allowed after the current one.  `resp i` is the endpoint's
behaviour on attempt `i` (0-based).  Returns the result, the number of
attempts actually issued, and the list of backoff delays slept
(`backoff_factor * 2 ** attempt`, in order). -/
def fetchGo (resp : ℕ → FetchOutcome α) (backoff : ℚ) :
    ℕ → ℕ → Option α × ℕ × List ℚ
  | attempt, 0 =>
    match resp attempt with
    | .jsonOk p => (some p, 1, [])
    | .nonJson => (none, 1, [])
    | .fail => (none, 1, [])
  | attempt, left + 1 =>
    match resp attempt with
    | .jsonOk p => (some p, 1, [])
    | .nonJson => (none, 1, [])
    | .fail =>
      let rest := fetchGo resp backoff (attempt + 1) left
      (rest.1, rest.2.1 + 1, backoff * 2 ^ attempt :: rest.2.2)

/-- Embedding of `DataFetcher.fetch_with_retry` (`src/data/fetcher.py:25`):
`for attempt in range(max_retries + 1)`, starting at attempt 0. -/
def fetch_with_retry (resp : ℕ → FetchOutcome α) (max_retries : ℕ) (backoff : ℚ) :
    Option α × ℕ × List ℚ :=
  fetchGo resp backoff 0 max_retries

/-- An entry of the fixed reference table
`DataFetcher._get_major_world_cities` (`src/data/fetcher.py:181`);
only the fields the proportional-estimation claims use are kept. -/
structure CityRef where
  name : String
  population : ℤ
deriving DecidableEq

/-- The fixed reference table of notable world cities with their
populations (`src/data/fetcher.py:181`); the smallest population is
Amsterdam at 872 680. -/
def majorWorldCities : List CityRef :=
  [⟨"New York", 8336817⟩, ⟨"Los Angeles", 3979576⟩, ⟨"Chicago", 2693976⟩,
   ⟨"Toronto", 2731571⟩, ⟨"Mexico City", 21580000⟩, ⟨"London", 9648110⟩,
   ⟨"Paris", 2161000⟩, ⟨"Berlin", 3669491⟩, ⟨"Madrid", 6642000⟩,
   ⟨"Rome", 2872800⟩, ⟨"Amsterdam", 872680⟩, ⟨"Tokyo", 37400068⟩,
   ⟨"Beijing", 21540000⟩, ⟨"Mumbai", 20400000⟩, ⟨"Seoul", 9720846⟩,
   ⟨"Singapore", 5850342⟩, ⟨"Bangkok", 10350000⟩, ⟨"Jakarta", 10560000⟩,
   ⟨"Dubai", 3400000⟩, ⟨"Istanbul", 15460000⟩, ⟨"Cairo", 20900000⟩,
   ⟨"Lagos", 15300000⟩, ⟨"Johannesburg", 4434827⟩, ⟨"São Paulo", 12400000⟩,
   ⟨"Buenos Aires", 15200000⟩, ⟨"Lima", 10700000⟩, ⟨"Sydney", 5312163⟩,
   ⟨"Melbourne", 5078193⟩]

/-- The "ensure numbers are realistic" caps of `DataFetcher._process_city_data`
(`src/data/fetcher.py:362` – `368`): floor cases at 100, cap them at
`int(city_population * 0.3)`, then cap deaths at `int(total_cases * 0.05)`.
Returns `(total_cases, deaths)`. -/
def cityCaps (city_population cases deaths : ℤ) : ℤ × ℤ :=
  let c1 := max cases 100
  let c2 := min c1 (pyScale 3 10 city_population)
  (c2, min deaths (pyScale 5 100 c2))

/-- Result of the recovery-correction heuristic (steps 6–7 of the
proportional-estimation algorithm). -/
structure Corrected where
  cases : ℤ
  deaths : ℤ
  recovered : ℤ
  active : ℤ
  estimated : Bool
  estimation : Option ℤ
deriving DecidableEq

/-- Embedding of the recovery-correction part of
`DataFetcher._process_city_data` (`src/data/fetcher.py:371` – `417`),
taking the already-capped `total_cases` and `deaths` together with the
derived `recovered` and the city population.  The `recovery_rate < 0.1`
test is `total_cases ≤ 0 ∨ 10 * recovered < total_cases`. -/
def cityCorrect (city_population total_cases deaths recovered : ℤ) : Corrected :=
  let step1 : Bool × Option ℤ × ℤ :=
    if total_cases ≤ 0 ∨ 10 * recovered < total_cases then
      let er := min (pyScale 96 100 (total_cases - deaths)) (pyScale 95 100 total_cases)
      (true, some er, er)
    else (false, none, recovered)
  let est := step1.1
  let r1 := step1.2.2
  let step2 : ℤ × Option ℤ :=
    if total_cases < deaths + r1 then
      let r' := max 0 (total_cases - deaths)
      (r', if est then some r' else step1.2.1)
    else (r1, step1.2.1)
  let r2 := step2.1
  let active1 := max 0 (total_cases - deaths - r2)
  let cap := pyScale 2 100 city_population
  let step3 : ℤ × ℤ × Option ℤ :=
    if cap < active1 then
      let r' := max 0 (total_cases - deaths - cap)
      (cap, r', if est then some r' else step2.2)
    else (active1, r2, step2.2)
  { cases := total_cases
    deaths := deaths
    recovered := step3.2.1
    active := step3.1
    estimated := est
    estimation := step3.2.2 }

/-- Embedding of the estimation part of `DataFetcher._process_state_data`
(`src/data/fetcher.py:443` – `472`): the heuristic fires only when
`recovery_rate < 0.1 and total_cases > 0`; unlike the city path, the
substituted value is also floored at 0 and there are no further clamps. -/
def stateCorrect (cases deaths recovered active : ℤ) : Corrected :=
  if (cases ≤ 0 ∨ 10 * recovered < cases) ∧ 0 < cases then
    let er0 := pyScale 96 100 (cases - deaths)
    let er1 := min er0 (pyScale 95 100 cases)
    let er := max er1 0
    { cases := cases
      deaths := deaths
      recovered := er
      active := max 0 (cases - deaths - er)
      estimated := true
      estimation := some er }
  else
    { cases := cases
      deaths := deaths
      recovered := recovered
      active := active
      estimated := false
      estimation := none }

end CoviDash.DataFetcher

namespace CoviDash.CacheModel

/-- Association-list lookup (first binding wins), the read model of a Python
dict or of a directory of files addressed by path. -/
def lookupKey : List (String × β) → String → Option β
  | [], _ => none
  | p :: rest, k => if p.1 = k then some p.2 else lookupKey rest k

/-- Remove every binding of a key (`del d[k]` / `os.remove(path)`). -/
def removeKey : List (String × β) → String → List (String × β)
  | [], _ => []
  | p :: rest, k => if p.1 = k then removeKey rest k else p :: removeKey rest k

/-- Overwrite a key (`d[k] = v` / writing a file). -/
def upsert (l : List (String × β)) (k : String) (v : β) : List (String × β) :=
  (k, v) :: removeKey l k

/-- Contents of one file in the cache directory: either a data file
(`{'data': ..., 'timestamp': ...}`) or a metadata sidecar.  The metadata's
`size`/`type` introspection fields are never read back for correctness and
are not modelled. -/
inductive FileContent (α : Type) where
  | entry (data : α) (timestamp : ℚ)
  | sidecar (timestamp : ℚ)
deriving DecidableEq

/-- State of a `DataCache` instance (`src/covidash/data/cache.py:13`)
together with its file-system tier.  Timestamps are wall-clock seconds as
exact rationals; ISO serialisation is assumed to round-trip.  All
operations are modelled as executed under the instance's re-entrant lock,
so they act atomically on this state. -/
structure DataCache (α : Type) where
  cache_dir : String
  max_age_hours : ℚ
  memory_cache : List (String × α × ℚ)
  cache_metadata : List (String × ℚ)
  files : List (String × FileContent α)
deriving DecidableEq

/-- Path-safe key encoding (`DataCache._get_cache_file_path`,
`src/covidash/data/cache.py:26`). -/
def safeKey (k : String) : String :=
  k.map (fun c => if c = '/' ∨ c = '\\' then '_' else c)

/-- Data-file path for a key (`src/covidash/data/cache.py:26`). -/
def cacheFilePath (cache_dir : String) (k : String) : String :=
  cache_dir ++ "/" ++ safeKey k ++ ".json"

/-- Metadata-file path for a key (`src/covidash/data/cache.py:30`). -/
def metadataFilePath (cache_dir : String) (k : String) : String :=
  cache_dir ++ "/" ++ safeKey k ++ "_meta.json"

/-- Embedding of `DataCache._is_cache_valid` (`src/covidash/data/cache.py:34`):
age strictly below `max_age_hours * 3600` seconds. -/
def is_cache_valid (c : DataCache α) (timestamp now : ℚ) : Bool :=
  decide (now - timestamp < c.max_age_hours * 3600)

/-- Embedding of `DataCache.set` (`src/covidash/data/cache.py:44`).
`persistOk` injects the file-system failure mode: when false, the first
file write raises, the exception is caught and `False` is returned — after
the memory tier (and in-memory metadata) were already updated. -/
def set (c : DataCache α) (now : ℚ) (key : String) (data : α) (persistOk : Bool) :
    Bool × DataCache α :=
  let mem := upsert c.memory_cache key (data, now)
  let md := upsert c.cache_metadata key now
  if persistOk then
    let fs1 := upsert c.files (cacheFilePath c.cache_dir key) (.entry data now)
    let fs2 := upsert fs1 (metadataFilePath c.cache_dir key) (.sidecar now)
    (true, { c with memory_cache := mem, cache_metadata := md, files := fs2 })
  else
    (false, { c with memory_cache := mem, cache_metadata := md })

/-- The file-fallback part of `DataCache.get`
(`src/covidash/data/cache.py:90` – `108`): a fresh file repopulates memory;
a stale file and its sidecar are deleted; a missing or malformed file is a
miss. -/
def getFile (c : DataCache α) (now : ℚ) (key : String) (use_file_fallback : Bool) :
    Option α × DataCache α :=
  if use_file_fallback then
    match lookupKey c.files (cacheFilePath c.cache_dir key) with
    | some (.entry data ts) =>
      if is_cache_valid c ts now then
        (some data, { c with memory_cache := upsert c.memory_cache key (data, ts) })
      else
        let fs := removeKey (removeKey c.files (cacheFilePath c.cache_dir key)) (metadataFilePath c.cache_dir key)
        (none, { c with files := fs })
    | some (.sidecar _) => (none, c)
    | none => (none, c)
  else (none, c)

/-- Embedding of `DataCache.get` (`src/covidash/data/cache.py:79`): memory
tier first (evicting a stale entry), then the file fallback. -/
def get (c : DataCache α) (now : ℚ) (key : String) (use_file_fallback : Bool) :
    Option α × DataCache α :=
  match lookupKey c.memory_cache key with
  | some (data, ts) =>
    if is_cache_valid c ts now then (some data, c)
    else
      getFile { c with memory_cache := removeKey c.memory_cache key } now key use_file_fallback
  | none => getFile c now key use_file_fallback

end CoviDash.CacheModel

namespace CoviDash.DataProcessor

/-- The fixed set of marker colors appearing in
`DataProcessor.get_marker_color` (`src/data/processor.py:56`), most severe
first. -/
def markerPalette : List String :=
  ["#800026", "#BD0026", "#E31A1C", "#FC4E2A", "#FD8D3C", "#FEB24C"]

/-- Raw record whose deaths + recovered exceed its cases (claim C1). -/
def rawOverCounted : RawRecord :=
  { cases := some 100, deaths := some 60, recovered := some 60,
    population := some 1000000 }

/-- Raw record whose low recovery rate triggers the 2 %-of-population
active cap (claim C1). -/
def rawLowRecovery : RawRecord :=
  { cases := some 1000, deaths := some 0, recovered := some 0,
    population := some 1000 }

/-- Raw record with negative deaths, accepted by validation (claim C1). -/
def rawNegDeaths : RawRecord :=
  { cases := some 100, deaths := some (-60), recovered := some 0,
    population := some 1000000 }

end CoviDash.DataProcessor

namespace CoviDash

theorem listAll_iff_forall_mem {p : α → Prop} : ∀ {l : List α}, ListAll p l ↔ ∀ a ∈ l, p a
  | [] => by simp [ListAll]
  | a :: l => by
    simp only [ListAll, List.mem_cons]
    rw [listAll_iff_forall_mem]
    constructor
    · rintro ⟨ha, hl⟩ x (rfl | hx)
      · exact ha
      · exact hl x hx
    · intro h
      exact ⟨h a (Or.inl rfl), fun x hx => h x (Or.inr hx)⟩

end CoviDash

namespace CoviDash.CacheModel

theorem lookupKey_upsert_self (l : List (String × β)) (k : String) (v : β) :
    lookupKey (upsert l k v) k = some v := by
  simp [upsert, lookupKey]

theorem lookupKey_removeKey_self (l : List (String × β)) (k : String) :
    lookupKey (removeKey l k) k = none := by
  induction l with
  | nil => rfl
  | cons p rest ih =>
    by_cases h : p.1 = k
    · simp [removeKey, h, ih]
    · simp [removeKey, lookupKey, h, ih]

theorem lookupKey_removeKey_ne (l : List (String × β)) {k1 k2 : String} (h : k1 ≠ k2) :
    lookupKey (removeKey l k2) k1 = lookupKey l k1 := by
  induction l with
  | nil => rfl
  | cons p rest ih =>
    by_cases hp : p.1 = k2
    · have hne : p.1 ≠ k1 := by rw [hp]; exact fun e => h e.symm
      have hkk : k2 ≠ k1 := fun e => h e.symm
      simp [removeKey, hp, lookupKey, hne, hkk, ih]
    · by_cases hq : p.1 = k1
      · simp [removeKey, lookupKey, hp, hq, h]
      · simp [removeKey, lookupKey, hp, hq, ih]

theorem lookupKey_upsert_ne (l : List (String × β)) {k1 k2 : String} (v : β) (h : k1 ≠ k2) :
    lookupKey (upsert l k2 v) k1 = lookupKey l k1 := by
  have hne : k2 ≠ k1 := fun e => h e.symm
  simp [upsert, lookupKey, hne, lookupKey_removeKey_ne l h]

theorem metadata_ne_cache_path (cache_dir : String) (k : String) :
    metadataFilePath cache_dir k ≠ cacheFilePath cache_dir k := by
  intro h
  have hl := congrArg String.length h
  have h10 : ("_meta.json" : String).length = 10 := by decide
  have h5 : (".json" : String).length = 5 := by decide
  simp only [metadataFilePath, cacheFilePath, String.length_append, h10, h5] at hl
  omega

end CoviDash.CacheModel

namespace CoviDash.CacheModel

/-- Claim C4: cache round-trip — for every key `k` and every storable value
`v`, `set k v` at time `t` immediately followed by `get k` at a time `now`
at which the entry's age is still within `maxAge` returns exactly `v`
(the memory tier returns the stored object itself). -/
theorem C4_cache_roundtrip {α : Type} (c : DataCache α) (key : String) (v : α)
    (t now : ℚ) (h : now - t < c.max_age_hours * 3600) :
    (get ((set c t key v true).2) now key true).1 = some v := by
  simp [set, get, upsert, lookupKey, is_cache_valid, h]

/-- Witness for C4 at a concrete instance. -/
theorem C4_cache_roundtrip_witness :
    (get ((set (⟨"cache", 24, [], [], []⟩ : DataCache ℤ) 0 "cities_data" 42 true).2)
      10 "cities_data" true).1 = some 42 :=
  C4_cache_roundtrip ⟨"cache", 24, [], [], []⟩ "cities_data" 42 0 10 (by norm_num)

/-- Claim C5: cache expiry — an entry written at time `t` and queried at
time `t + maxAge + ε` (with `ε ≥ 0`) misses: the query returns `None`, the
memory tier no longer holds the key, and afterwards neither the data file
nor the metadata file for that key exists. -/
theorem C5_cache_expiry {α : Type} (c : DataCache α) (key : String) (v : α)
    (t ε : ℚ) (hε : 0 ≤ ε) :
    (get ((set c t key v true).2) (t + c.max_age_hours * 3600 + ε) key true).1 = none ∧
    lookupKey ((get ((set c t key v true).2)
      (t + c.max_age_hours * 3600 + ε) key true).2).memory_cache key = none ∧
    lookupKey ((get ((set c t key v true).2)
      (t + c.max_age_hours * 3600 + ε) key true).2).files
      (cacheFilePath c.cache_dir key) = none ∧
    lookupKey ((get ((set c t key v true).2)
      (t + c.max_age_hours * 3600 + ε) key true).2).files
      (metadataFilePath c.cache_dir key) = none := by
  have hMne : metadataFilePath c.cache_dir key ≠ cacheFilePath c.cache_dir key :=
    metadata_ne_cache_path c.cache_dir key
  have hDne : cacheFilePath c.cache_dir key ≠ metadataFilePath c.cache_dir key :=
    fun e => hMne e.symm
  have hstale : ¬ (t + c.max_age_hours * 3600 + ε - t < c.max_age_hours * 3600) := by
    linarith
  refine ⟨?_, ?_, ?_, ?_⟩ <;>
    simp [get, set, getFile, is_cache_valid, hstale,
      lookupKey_upsert_self, lookupKey_upsert_ne _ _ hDne,
      lookupKey_removeKey_self, lookupKey_removeKey_ne _ hDne,
      lookupKey_removeKey_ne _ hMne]

/-- Witness for C5 at a concrete instance. -/
theorem C5_cache_expiry_witness :
    (get ((set (⟨"cache", 24, [], [], []⟩ : DataCache ℤ) 0 "k" 7 true).2)
      (0 + (24 : ℚ) * 3600 + 1) "k" true).1 = none :=
  (C5_cache_expiry ⟨"cache", 24, [], [], []⟩ "k" 7 0 1 (by norm_num)).1

/-- Claim C7: a persisted-tier write failure during `set` makes `set`
report `False`, but the memory write is not rolled back: a `get` within
`maxAge` still returns the stored payload. -/
theorem C7_persist_failure {α : Type} (c : DataCache α) (key : String) (v : α)
    (t now : ℚ) (h : now - t < c.max_age_hours * 3600) :
    (set c t key v false).1 = false ∧
    (get ((set c t key v false).2) now key true).1 = some v := by
  constructor
  · simp [set]
  · simp [set, get, upsert, lookupKey, is_cache_valid, h]

/-- Witness for C7 at a concrete instance. -/
theorem C7_persist_failure_witness :
    (set (⟨"cache", 24, [], [], []⟩ : DataCache ℤ) 0 "k" 9 false).1 = false ∧
    (get ((set (⟨"cache", 24, [], [], []⟩ : DataCache ℤ) 0 "k" 9 false).2)
      100 "k" true).1 = some 9 :=
  C7_persist_failure ⟨"cache", 24, [], [], []⟩ "k" 9 0 100 (by norm_num)

end CoviDash.CacheModel
namespace CoviDash.DataFetcher

theorem fetchGo_all_fail {α : Type} (resp : ℕ → FetchOutcome α) (backoff : ℚ)
    (h : ∀ i, resp i = .fail) :
    ∀ (left attempt : ℕ), fetchGo resp backoff attempt left =
      (none, left + 1, (List.range left).map (fun i => backoff * 2 ^ (attempt + i))) := by
  intro left
  induction left with
  | zero => intro attempt; simp [fetchGo, h attempt]
  | succ n ih =>
    intro attempt
    simp only [fetchGo, h attempt]
    rw [ih (attempt + 1)]
    refine Prod.ext rfl (Prod.ext rfl ?_)
    simp only [List.range_succ_eq_map, List.map_cons, List.map_map, Nat.add_zero]
    refine congrArg₂ _ rfl (List.map_congr_left ?_)
    intro i hi
    have : attempt + 1 + i = attempt + (i + 1) := by omega
    simp [Function.comp, this]

theorem fetchGo_fail_then_ok {α : Type} (resp : ℕ → FetchOutcome α) (backoff : ℚ) (p : α) :
    ∀ (left attempt : ℕ), (∀ i, i < left → resp (attempt + i) = .fail) →
      resp (attempt + left) = .jsonOk p →
      (fetchGo resp backoff attempt left).1 = some p := by
  intro left
  induction left with
  | zero =>
    intro attempt _ hs
    have hs0 : resp attempt = .jsonOk p := by simpa using hs
    simp [fetchGo, hs0]
  | succ n ih =>
    intro attempt h hs
    have h0 : resp attempt = .fail := by simpa using h 0 (Nat.succ_pos n)
    simp only [fetchGo, h0]
    exact ih (attempt + 1) (fun i hi => by
        have := h (i + 1) (by omega)
        simpa [Nat.add_assoc, Nat.add_comm 1 i] using this)
      (by simpa [Nat.add_assoc, Nat.add_comm 1 n] using hs)

/-- Claim C3: `fetch_with_retry` against an endpoint failing on every
attempt returns `None` after exactly `max_retries + 1` attempts, sleeping
`backoff_factor * 2 ** attempt` before each retry; against an endpoint that
fails `max_retries` times and then succeeds with a JSON payload, it returns
that payload. -/
theorem C3_fetch_with_retry {α : Type} :
    (∀ (resp : ℕ → FetchOutcome α) (max_retries : ℕ) (backoff : ℚ),
      (∀ i, resp i = .fail) →
      fetch_with_retry resp max_retries backoff =
        (none, max_retries + 1,
          (List.range max_retries).map (fun i => backoff * 2 ^ i))) ∧
    (∀ (resp : ℕ → FetchOutcome α) (max_retries : ℕ) (backoff : ℚ) (p : α),
      (∀ i, i < max_retries → resp i = .fail) →
      resp max_retries = .jsonOk p →
      (fetch_with_retry resp max_retries backoff).1 = some p) := by
  constructor
  · intro resp max_retries backoff h
    rw [fetch_with_retry, fetchGo_all_fail resp backoff h max_retries 0]
    simp
  · intro resp max_retries backoff p h hs
    exact fetchGo_fail_then_ok resp backoff p max_retries 0
      (fun i hi => by simpa using h i hi) (by simpa using hs)

/-- Witness for C3 at concrete endpoints (`max_retries = 2`). -/
theorem C3_fetch_with_retry_witness :
    fetch_with_retry (fun _ => (FetchOutcome.fail : FetchOutcome ℕ)) 2 1 =
      (none, 3, [1, 2]) ∧
    (fetch_with_retry
      (fun i => if i < 2 then (FetchOutcome.fail : FetchOutcome ℕ)
                else .jsonOk 5) 2 1).1 = some 5 := by
  constructor
  · rw [C3_fetch_with_retry.1 (fun _ => FetchOutcome.fail) 2 1 (fun _ => rfl)]
    norm_num [List.range_succ]
  · exact C3_fetch_with_retry.2 _ 2 1 5 (fun i hi => by simp [hi]) (by simp)

end CoviDash.DataFetcher
namespace CoviDash.DataProcessor

/-- Claim C8 as stated ("the marker-color function takes at most five
distinct values over all inputs") is false: `get_marker_color` attains six
pairwise-distinct colors, exhibited at the concrete rates
5000, 2000, 1000, 500, 100, 0. -/
theorem C8_palette_counterexample :
    ¬ ∃ s : Finset String, s.card ≤ 5 ∧ ∀ q : ℚ, get_marker_color q ∈ s := by
  rintro ⟨s, hcard, hcov⟩
  have h6 : ({"#800026", "#BD0026", "#E31A1C", "#FC4E2A", "#FD8D3C", "#FEB24C"} :
      Finset String) ⊆ s := by
    intro x hx
    simp only [Finset.mem_insert, Finset.mem_singleton] at hx
    rcases hx with rfl | rfl | rfl | rfl | rfl | rfl
    · have e : get_marker_color 5000 = "#800026" := by decide
      exact e ▸ hcov 5000
    · have e : get_marker_color 2000 = "#BD0026" := by decide
      exact e ▸ hcov 2000
    · have e : get_marker_color 1000 = "#E31A1C" := by decide
      exact e ▸ hcov 1000
    · have e : get_marker_color 500 = "#FC4E2A" := by decide
      exact e ▸ hcov 500
    · have e : get_marker_color 100 = "#FD8D3C" := by decide
      exact e ▸ hcov 100
    · have e : get_marker_color 0 = "#FEB24C" := by decide
      exact e ▸ hcov 0
  have hle := Finset.card_le_card h6
  have hc : ({"#800026", "#BD0026", "#E31A1C", "#FC4E2A", "#FD8D3C", "#FEB24C"} :
      Finset String).card = 6 := by decide
  omega

/-- Claim C8 amended: the marker color assigned to every record is drawn
from a fixed SIX-band palette keyed on the infection rate, and all six
colors are attained. -/
theorem C8_palette_amended :
    (∀ q : ℚ, get_marker_color q ∈ markerPalette) ∧
    markerPalette.length = 6 ∧ markerPalette.Nodup ∧
    ([(5000 : ℚ), 2000, 1000, 500, 100, 0].map get_marker_color) = markerPalette := by
  refine ⟨?_, by decide, by decide, by decide⟩
  intro q
  unfold get_marker_color markerPalette
  split_ifs <;> simp

end CoviDash.DataProcessor
namespace CoviDash.DataProcessor

/-- Claim C9: for every raw record list, `process_cities_data` normalizes
each record, drops exactly the records that fail validation (the batch
never fails), and returns the survivors sorted by `infection_rate` in
descending order: the output is pairwise descending and is a permutation
of the cleaned-and-validated records. -/
theorem C9_process_sorted (raws : List RawRecord) :
    (process_cities_data raws).Pairwise
      (fun a b => b.infection_rate ≤ a.infection_rate) ∧
    (process_cities_data raws).Perm
      ((raws.map clean_city_data).filter validate_city_data) := by
  unfold process_cities_data
  constructor
  · refine List.Pairwise.imp (fun h => of_decide_eq_true h)
      (List.sorted_mergeSort ?_ ?_ _)
    · intro a b c hab hbc
      simp only [decide_eq_true_eq] at *
      exact le_trans hbc hab
    · intro a b
      simp only [Bool.or_eq_true, decide_eq_true_eq]
      exact le_total _ _
  · exact List.mergeSort_perm _ _

end CoviDash.DataProcessor
namespace CoviDash.DataProcessor

theorem get_risk_level_cases (q : ℚ) :
    get_risk_level q = "low" ∨ get_risk_level q = "medium" ∨
    get_risk_level q = "high" ∨ get_risk_level q = "critical" := by
  unfold get_risk_level
  split_ifs <;> simp

theorem clean_risk_level (d : RawRecord) :
    ∃ q, (clean_city_data d).risk_level = get_risk_level q :=
  ⟨_, rfl⟩

theorem riskFold_total :
    ∀ (recs : List CleanedRecord) (t : RiskDist),
    (∀ r ∈ recs, r.risk_level = "low" ∨ r.risk_level = "medium" ∨
      r.risk_level = "high" ∨ r.risk_level = "critical") →
    ∃ d : RiskDist,
      recs.foldlM (fun t r => bumpRisk t r.risk_level) t = some d ∧
      d.low + d.medium + d.high + d.critical =
        t.low + t.medium + t.high + t.critical + recs.length := by
  intro recs
  induction recs with
  | nil => exact fun t _ => ⟨t, rfl, by simp⟩
  | cons r rest ih =>
    intro t h
    have hr := h r (List.mem_cons_self r rest)
    obtain ⟨t', ht', hsum⟩ : ∃ t', bumpRisk t r.risk_level = some t' ∧
        t'.low + t'.medium + t'.high + t'.critical =
          t.low + t.medium + t.high + t.critical + 1 := by
      rcases hr with h1 | h1 | h1 | h1
      · exact ⟨{ t with low := t.low + 1 }, by simp [bumpRisk, h1], by dsimp only; omega⟩
      · exact ⟨{ t with medium := t.medium + 1 }, by simp [bumpRisk, h1], by dsimp only; omega⟩
      · exact ⟨{ t with high := t.high + 1 }, by simp [bumpRisk, h1], by dsimp only; omega⟩
      · exact ⟨{ t with critical := t.critical + 1 }, by simp [bumpRisk, h1], by dsimp only; omega⟩
    obtain ⟨d, hd, hdsum⟩ := ih t' (fun x hx => h x (List.mem_cons_of_mem r hx))
    refine ⟨d, ?_, ?_⟩
    · simp [List.foldlM_cons, ht', hd]
    · simp only [List.length_cons]
      omega

/-- Claim C10: the risk-level function is total with range contained in
the four fixed buckets, so the risk tally of `get_statistics_summary`
never raises `KeyError` on any processed dataset and its four counts sum
to the number of records. -/
theorem C10_risk_tally_total (raws : List RawRecord) :
    ∃ d : RiskDist,
      riskDistribution (process_cities_data raws) = some d ∧
      d.low + d.medium + d.high + d.critical = (process_cities_data raws).length := by
  have hmem : ∀ r ∈ process_cities_data raws,
      r.risk_level = "low" ∨ r.risk_level = "medium" ∨
      r.risk_level = "high" ∨ r.risk_level = "critical" := by
    intro r hr
    have h1 : r ∈ (raws.map clean_city_data).filter validate_city_data := by
      unfold process_cities_data at hr
      exact List.mem_mergeSort.1 hr
    have h2 : r ∈ raws.map clean_city_data := List.mem_of_mem_filter h1
    obtain ⟨raw, -, rfl⟩ := List.mem_map.1 h2
    obtain ⟨q, hq⟩ := clean_risk_level raw
    rw [hq]
    exact get_risk_level_cases q
  obtain ⟨d, hd, hsum⟩ := riskFold_total (process_cities_data raws) ⟨0, 0, 0, 0⟩ hmem
  exact ⟨d, hd, by simpa using hsum⟩

end CoviDash.DataProcessor
namespace CoviDash

theorem pytrunc_nonneg {a b : ℤ} (ha : 0 ≤ a) (hb : 0 ≤ b) : 0 ≤ pytrunc a b := by
  unfold pytrunc
  rw [if_neg (by omega)]
  exact Int.ediv_nonneg ha hb

end CoviDash

namespace CoviDash.DataProcessor

theorem process_singleton (raw : RawRecord)
    (hv : validate_city_data (clean_city_data raw) = true) :
    process_cities_data [raw] = [clean_city_data raw] := by
  unfold process_cities_data
  rw [List.map_cons, List.map_nil, List.filter_cons_of_pos hv, List.filter_nil]
  exact List.mergeSort_singleton _

/-- Claim C1 as stated is false on the code.  Three concrete datasets show
it: a processed dataset can hold a record with `deaths + recovered > cases`
(raw 100/60/60 — the cleaner never clamps deaths or recovered), a record
with `active ≠ max(0, cases − deaths − recovered)` (raw 1000/0/0 with
population 1000: the low-recovery branch caps `active` at 2 % of
population, i.e. 20), and a record with `deaths + recovered < 0`
(raw deaths −60 — validation only checks population and cases). -/
theorem C1_claim_counterexample :
    (¬ ListAll (fun rec =>
        0 ≤ rec.deaths + rec.recovered ∧
        rec.deaths + rec.recovered ≤ rec.cases ∧
        rec.active = max 0 (rec.cases - rec.deaths - rec.recovered))
      (process_cities_data [rawOverCounted])) ∧
    (¬ ListAll (fun rec =>
        rec.active = max 0 (rec.cases - rec.deaths - rec.recovered))
      (process_cities_data [rawLowRecovery])) ∧
    (¬ ListAll (fun rec => 0 ≤ rec.deaths + rec.recovered)
      (process_cities_data [rawNegDeaths])) := by
  refine ⟨?_, ?_, ?_⟩
  · rw [process_singleton rawOverCounted (by decide)]
    decide
  · rw [process_singleton rawLowRecovery (by decide)]
    decide
  · rw [process_singleton rawNegDeaths (by decide)]
    decide

/-- Claim C1 amended: in every processed dataset, `active` is nonnegative
and equals `max(0, cases − deaths − recovered)` when the recovery rate is
at least 10 %, and `min(max(0, cases − deaths − recovered),
int(0.02 × population))` otherwise; `0 ≤ deaths + recovered ≤ cases` is
not enforced by the normalizer. -/
theorem C1_active_clamp_amended (raws : List RawRecord) :
    ListAll (fun rec =>
      0 ≤ rec.active ∧
      rec.active =
        if rec.cases ≤ 0 ∨ 10 * rec.recovered < rec.cases then
          min (max 0 (rec.cases - rec.deaths - rec.recovered))
            (pyScale 2 100 rec.population)
        else max 0 (rec.cases - rec.deaths - rec.recovered))
      (process_cities_data raws) := by
  rw [listAll_iff_forall_mem]
  intro rec hrec
  have h1 : rec ∈ (raws.map clean_city_data).filter validate_city_data := by
    unfold process_cities_data at hrec
    exact List.mem_mergeSort.1 hrec
  have hval : validate_city_data rec = true := List.of_mem_filter h1
  have h2 : rec ∈ raws.map clean_city_data := List.mem_of_mem_filter h1
  obtain ⟨raw, -, rfl⟩ := List.mem_map.1 h2
  have hpop : 0 < (clean_city_data raw).population := by
    simp only [validate_city_data, Bool.and_eq_true, decide_eq_true_eq] at hval
    exact hval.1.2
  have hp : 0 < raw.population.getD 1 := hpop
  have hcap : 0 ≤ pyScale 2 100 (raw.population.getD 1) :=
    pytrunc_nonneg (by omega) (by norm_num)
  dsimp only [clean_city_data]
  refine ⟨?_, rfl⟩
  by_cases hcond : raw.cases.getD 0 ≤ 0 ∨ 10 * raw.recovered.getD 0 < raw.cases.getD 0
  · rw [if_pos hcond]
    exact le_min (le_max_left _ _) hcap
  · rw [if_neg hcond]
    exact le_max_left _ _

end CoviDash.DataProcessor
namespace CoviDash.DataFetcher

theorem cityCaps_bounds {p : ℤ} (hp : 334 ≤ p) (c d : ℤ) :
    10 * (cityCaps p c d).1 ≤ 3 * p ∧
    100 ≤ (cityCaps p c d).1 ∧
    100 * (cityCaps p c d).2 ≤ 5 * (cityCaps p c d).1 := by
  unfold cityCaps CoviDash.pyScale CoviDash.pytrunc
  dsimp only
  simp only [min_def, max_def]
  split_ifs <;> omega

/-- Claim C6: for every city record produced by the proportional-estimation
algorithm (the city inputs range over the fixed reference table of notable
world cities, whose smallest population is Amsterdam's 872 680), the capped
`total_cases` satisfies `cases ≤ 0.3 × cityPopulation` and `cases ≥ 100`
(so in particular the floor holds once any cases exist), and the capped
`deaths` satisfy `deaths ≤ 0.05 × cases`. -/
theorem C6_city_caps :
    ListAll (fun e => ∀ c d : ℤ,
      10 * (cityCaps e.population c d).1 ≤ 3 * e.population ∧
      100 ≤ (cityCaps e.population c d).1 ∧
      100 * (cityCaps e.population c d).2 ≤ 5 * (cityCaps e.population c d).1)
      majorWorldCities := by
  have h334 : ListAll (fun e => (334 : ℤ) ≤ e.population) majorWorldCities := by
    decide
  rw [CoviDash.listAll_iff_forall_mem] at h334 ⊢
  exact fun e he c d => cityCaps_bounds (h334 e he) c d

end CoviDash.DataFetcher
namespace CoviDash.DataFetcher

theorem stateCorrect_low {c d r a : ℤ} (hc : 0 < c) (hr : 10 * r < c) :
    (stateCorrect c d r a).estimated = true ∧
    (stateCorrect c d r a).estimation = some ((stateCorrect c d r a).recovered) ∧
    100 * (stateCorrect c d r a).recovered ≤ 95 * c := by
  unfold stateCorrect CoviDash.pyScale CoviDash.pytrunc
  rw [if_pos ⟨Or.inr hr, hc⟩]
  refine ⟨rfl, rfl, ?_⟩
  dsimp only
  simp only [min_def, max_def]
  split_ifs <;> omega

theorem stateCorrect_high {c d r a : ℤ} (hc : 0 < c) (hr : c ≤ 10 * r) :
    (stateCorrect c d r a).estimated = false ∧
    (stateCorrect c d r a).recovered = r := by
  unfold stateCorrect
  rw [if_neg (by rintro ⟨h | h, -⟩ <;> omega)]
  exact ⟨rfl, rfl⟩

theorem cityCorrect_low_tracks {p t d r : ℤ} (hcond : t ≤ 0 ∨ 10 * r < t) :
    (cityCorrect p t d r).estimated = true ∧
    (cityCorrect p t d r).estimation = some ((cityCorrect p t d r).recovered) := by
  unfold cityCorrect
  dsimp only
  rw [if_pos hcond]
  dsimp only
  split_ifs <;> simp_all

theorem cityCorrect_eval_noclamp {p t d r : ℤ} (hcond : t ≤ 0 ∨ 10 * r < t)
    (h1 : ¬ (t < d + min (CoviDash.pyScale 96 100 (t - d)) (CoviDash.pyScale 95 100 t)))
    (h2 : ¬ (CoviDash.pyScale 2 100 p <
      max 0 (t - d - min (CoviDash.pyScale 96 100 (t - d)) (CoviDash.pyScale 95 100 t)))) :
    (cityCorrect p t d r).recovered =
      min (CoviDash.pyScale 96 100 (t - d)) (CoviDash.pyScale 95 100 t) := by
  unfold cityCorrect
  dsimp only
  rw [if_pos hcond]
  dsimp only
  rw [if_neg h1]
  dsimp only
  rw [if_neg h2]

theorem cityCorrect_low_bound {p t d r : ℤ} (hp : 872680 ≤ p) (hd : 0 ≤ d)
    (hdt : 20 * d ≤ t) (htp : 10 * t ≤ 3 * p) (ht : 0 < t) (hr : 10 * r < t) :
    100 * (cityCorrect p t d r).recovered ≤ 95 * t := by
  have h96 : 100 * CoviDash.pyScale 96 100 (t - d) ≤ 96 * (t - d) ∧
      96 * (t - d) < 100 * CoviDash.pyScale 96 100 (t - d) + 100 := by
    unfold CoviDash.pyScale CoviDash.pytrunc
    rw [if_neg (by omega)]
    omega
  have h95 : 100 * CoviDash.pyScale 95 100 t ≤ 95 * t ∧
      95 * t < 100 * CoviDash.pyScale 95 100 t + 100 := by
    unfold CoviDash.pyScale CoviDash.pytrunc
    rw [if_neg (by omega)]
    omega
  have h2p : 100 * CoviDash.pyScale 2 100 p ≤ 2 * p ∧
      2 * p < 100 * CoviDash.pyScale 2 100 p + 100 := by
    unfold CoviDash.pyScale CoviDash.pytrunc
    rw [if_neg (by omega)]
    omega
  have hminl := min_le_left (CoviDash.pyScale 96 100 (t - d)) (CoviDash.pyScale 95 100 t)
  have hminr := min_le_right (CoviDash.pyScale 96 100 (t - d)) (CoviDash.pyScale 95 100 t)
  have h1 : ¬ (t < d + min (CoviDash.pyScale 96 100 (t - d)) (CoviDash.pyScale 95 100 t)) := by
    omega
  have h2 : ¬ (CoviDash.pyScale 2 100 p <
      max 0 (t - d - min (CoviDash.pyScale 96 100 (t - d)) (CoviDash.pyScale 95 100 t))) := by
    rcases min_choice (CoviDash.pyScale 96 100 (t - d)) (CoviDash.pyScale 95 100 t) with
      hm | hm <;>
      rw [hm, max_def] <;> split_ifs <;> omega
  rw [cityCorrect_eval_noclamp (Or.inr hr) h1 h2]
  omega

theorem cityCorrect_high {p t d r : ℤ} (ht : 0 < t) (hr : t ≤ 10 * r) :
    (cityCorrect p t d r).estimated = false := by
  unfold cityCorrect
  dsimp only
  rw [if_neg (by rintro (h | h) <;> omega)]

end CoviDash.DataFetcher

namespace CoviDash.DataFetcher

/-- Claim C2 as stated is false on the city path of the heuristic.
First input: a record entering with population 16, capped cases 4
(`cityCaps 16 0 0 = (4, 0)`), deaths 0, recovered 0 (rate 0 < 0.1) ends
with `estimation = recovered = 4 > 0.95 × 4`: the 2 %-of-population active
cap re-derives `recovered` upward past the 95 % limit.  Second input: a
record entering with cases 1000, deaths 50, recovered 1000 (rate 1 ≥ 0.1)
has its recovered re-derived to 950 by the `deaths + recovered ≤ cases`
clamp instead of being left as fetched. -/
theorem C2_heuristic_counterexample :
    cityCaps 16 0 0 = (4, 0) ∧
    (cityCorrect 16 4 0 0).estimated = true ∧
    (cityCorrect 16 4 0 0).estimation = some ((cityCorrect 16 4 0 0).recovered) ∧
    (cityCorrect 16 4 0 0).recovered = 4 ∧
    ¬ (100 * (cityCorrect 16 4 0 0).recovered ≤ 95 * (cityCorrect 16 4 0 0).cases) ∧
    cityCaps 2000000 1000 50 = (1000, 50) ∧
    (cityCorrect 2000000 1000 50 1000).estimated = false ∧
    (cityCorrect 2000000 1000 50 1000).recovered = 950 := by decide

/-- Claim C2 amended: the state-aggregate path satisfies the claim exactly
(low recovery rate with positive cases gives `estimated = true`,
`estimation` equal to the final recovered value and `≤ 0.95 × cases`;
otherwise recovered is left as fetched and `estimated = false`).  On the
city path, a record entering with cases > 0 and recovery rate < 0.1 gets
`estimated = true` and `estimation` equal to the final recovered value;
`estimation ≤ 0.95 × cases` additionally needs the entering values to come
from a reference-table city (population ≥ 872 680) with nonnegative capped
deaths (`20 × deaths ≤ cases`, `10 × cases ≤ 3 × population`); a city
record entering with recovery rate ≥ 0.1 gets `estimated = false` but its
recovered value may still be re-derived by the consistency clamps. -/
theorem C2_heuristic_amended :
    (∀ c d r a : ℤ, 0 < c → 10 * r < c →
      (stateCorrect c d r a).estimated = true ∧
      (stateCorrect c d r a).estimation = some ((stateCorrect c d r a).recovered) ∧
      100 * (stateCorrect c d r a).recovered ≤ 95 * c) ∧
    (∀ c d r a : ℤ, 0 < c → c ≤ 10 * r →
      (stateCorrect c d r a).estimated = false ∧
      (stateCorrect c d r a).recovered = r) ∧
    (∀ p t d r : ℤ, 0 < t → 10 * r < t →
      (cityCorrect p t d r).estimated = true ∧
      (cityCorrect p t d r).estimation = some ((cityCorrect p t d r).recovered)) ∧
    (∀ p t d r : ℤ, 872680 ≤ p → 0 ≤ d → 20 * d ≤ t → 10 * t ≤ 3 * p →
      0 < t → 10 * r < t →
      100 * (cityCorrect p t d r).recovered ≤ 95 * t) ∧
    (∀ p t d r : ℤ, 0 < t → t ≤ 10 * r →
      (cityCorrect p t d r).estimated = false) :=
  ⟨fun _ _ _ _ hc hr => stateCorrect_low hc hr,
   fun _ _ _ _ hc hr => stateCorrect_high hc hr,
   fun _ _ _ _ _ hr => cityCorrect_low_tracks (Or.inr hr),
   fun _ _ _ _ hp hd hdt htp ht hr => cityCorrect_low_bound hp hd hdt htp ht hr,
   fun _ _ _ _ ht hr => cityCorrect_high ht hr⟩

/-- Witness for the amended C2 at concrete inputs. -/
theorem C2_heuristic_amended_witness :
    ((stateCorrect 100 2 3 1).estimated = true ∧
      (stateCorrect 100 2 3 1).estimation = some ((stateCorrect 100 2 3 1).recovered) ∧
      100 * (stateCorrect 100 2 3 1).recovered ≤ 95 * 100) ∧
    ((stateCorrect 100 2 50 1).estimated = false ∧
      (stateCorrect 100 2 50 1).recovered = 50) ∧
    ((cityCorrect 16 4 0 0).estimated = true ∧
      (cityCorrect 16 4 0 0).estimation = some ((cityCorrect 16 4 0 0).recovered)) ∧
    100 * (cityCorrect 872680 1000 10 0).recovered ≤ 95 * 1000 ∧
    (cityCorrect 16 1000 0 100).estimated = false :=
  ⟨C2_heuristic_amended.1 100 2 3 1 (by norm_num) (by norm_num),
   C2_heuristic_amended.2.1 100 2 50 1 (by norm_num) (by norm_num),
   C2_heuristic_amended.2.2.1 16 4 0 0 (by norm_num) (by norm_num),
   C2_heuristic_amended.2.2.2.1 872680 1000 10 0 (by norm_num) (by norm_num)
     (by norm_num) (by norm_num) (by norm_num) (by norm_num),
   C2_heuristic_amended.2.2.2.2 16 1000 0 100 (by norm_num) (by norm_num)⟩

end CoviDash.DataFetcher
